import Mathlib

/-!
Verification of the FileFlows Home Assistant integration against its
natural-language specification.  The definitions below are a shallow
embedding of `custom_components/fileflows`: the HTTP client
(`api.py`), the polling coordinator (`__init__.py`), and the entity
adapters (`sensor.py`, `binary_sensor.py`, `sensors_nodes.py`,
`entity.py`).  Machine-level effects (the event loop, aiohttp) are
modelled by passing the outcome of each HTTP request explicitly.
-/

namespace FileFlows

/-- JSON values as produced by Python's `json.loads`.  Numbers are
modelled as integers: no theorem below evaluates the parser on a
fractional numeral. -/
inductive Json where
  | null : Json
  | bool (b : Bool) : Json
  | num (n : Int) : Json
  | str (s : String) : Json
  | arr (xs : List Json) : Json
  | obj (fields : List (String × Json)) : Json

/-- First-match lookup in an association list; models reading a key of a
Python dict that was built by insertions with distinct keys. -/
def lookupField : List (String × Json) → String → Option Json
  | [], _ => none
  | (k, v) :: rest, key => if k == key then some v else lookupField rest key

/-! ### A model of `json.loads`

`api.py` delegates parsing to Python's strict JSON parser.  The
executable model below covers the grammar exercised by the theorems:
literals, integer numerals, strings without escape sequences, arrays
and objects.  Recursion is bounded by a fuel argument that is always
sufficient because every nested value consumes at least one input
character. -/

/-- Skip JSON whitespace. -/
def skipWs : List Char → List Char
  | c :: rest =>
    if c == ' ' || c == '\t' || c == '\n' || c == '\r' then skipWs rest
    else c :: rest
  | [] => []

/-- Consume a maximal run of decimal digits. -/
def parseDigits : List Char → Nat → Nat × List Char
  | c :: rest, acc =>
    if c.isDigit then parseDigits rest (acc * 10 + (c.toNat - 48))
    else (acc, c :: rest)
  | [], acc => (acc, [])

/-- Parse a nonempty run of decimal digits. -/
def parseNat (cs : List Char) : Option (Nat × List Char) :=
  match cs with
  | c :: _ => if c.isDigit then some (parseDigits cs 0) else none
  | [] => none

/-- Parse the remainder of a JSON string after the opening quote
(escape sequences are not modelled; no theorem evaluates one). -/
def parseStrAux : List Char → Option (List Char × List Char)
  | [] => none
  | c :: rest =>
    if c == '"' then some ([], rest)
    else (parseStrAux rest).map (fun p => (c :: p.1, p.2))

mutual

/-- Parse one JSON value. -/
def parseValue : Nat → List Char → Option (Json × List Char)
  | 0, _ => none
  | Nat.succ fuel, cs =>
    match skipWs cs with
    | 'n' :: 'u' :: 'l' :: 'l' :: rest => some (Json.null, rest)
    | 't' :: 'r' :: 'u' :: 'e' :: rest => some (Json.bool true, rest)
    | 'f' :: 'a' :: 'l' :: 's' :: 'e' :: rest => some (Json.bool false, rest)
    | '"' :: rest =>
      (parseStrAux rest).map (fun p => (Json.str (String.mk p.1), p.2))
    | '[' :: rest =>
      (match skipWs rest with
       | ']' :: rest2 => some (Json.arr [], rest2)
       | cs2 => (parseElems fuel cs2).map (fun p => (Json.arr p.1, p.2)))
    | '{' :: rest =>
      (match skipWs rest with
       | '}' :: rest2 => some (Json.obj [], rest2)
       | cs2 => (parseFields fuel cs2).map (fun p => (Json.obj p.1, p.2)))
    | '-' :: rest =>
      (parseNat rest).map (fun p => (Json.num (-(p.1 : Int)), p.2))
    | cs2 => (parseNat cs2).map (fun p => (Json.num (p.1 : Int), p.2))

/-- Parse the elements of a nonempty array body, up to and including the
closing bracket. -/
def parseElems : Nat → List Char → Option (List Json × List Char)
  | 0, _ => none
  | Nat.succ fuel, cs =>
    match parseValue fuel cs with
    | none => none
    | some (v, rest) =>
      match skipWs rest with
      | ',' :: rest2 =>
        (parseElems fuel rest2).map (fun p => (v :: p.1, p.2))
      | ']' :: rest2 => some ([v], rest2)
      | _ => none

/-- Parse the members of a nonempty object body, up to and including the
closing brace. -/
def parseFields : Nat → List Char → Option (List (String × Json) × List Char)
  | 0, _ => none
  | Nat.succ fuel, cs =>
    match skipWs cs with
    | '"' :: rest =>
      (match parseStrAux rest with
       | none => none
       | some (key, rest2) =>
         match skipWs rest2 with
         | ':' :: rest3 =>
           (match parseValue fuel rest3 with
            | none => none
            | some (v, rest4) =>
              match skipWs rest4 with
              | ',' :: rest5 =>
                (parseFields fuel rest5).map
                  (fun p => ((String.mk key, v) :: p.1, p.2))
              | '}' :: rest5 => some ([(String.mk key, v)], rest5)
              | _ => none)
         | _ => none)
    | _ => none

end

/-- Model of `json.loads`: strict parse of the full body, rejecting
trailing non-whitespace. -/
def jsonLoads (s : String) : Option Json :=
  match parseValue (s.length + 1) s.data with
  | some (v, rest) => if (skipWs rest).isEmpty then some v else none
  | none => none

/-! ### The API client's `_request` (api.py lines 52-111) -/

/-- An HTTP response as seen by `_request`: status code and body text. -/
structure HttpResponse where
  status : Nat
  body : String

/-- The raise sites of `FileFlowsApiError` inside `_request`, one
constructor per `raise` statement. -/
inductive ApiError where
  | notFound (endpoint : String) : ApiError
  | httpError (status : Nat) (text : String) : ApiError
  | invalidJson (endpoint : String) : ApiError
  | timeout (url : String) : ApiError
  | connError (url : String) (detail : String) : ApiError

/-- The message each raise site formats into the exception.  The
`invalidJson` message elides the decoder's own detail text. -/
def ApiError.msg : ApiError → String
  | .notFound e => "Endpoint not found: " ++ e
  | .httpError s t => "API error " ++ toString s ++ ": " ++ t
  | .invalidJson e => "Invalid JSON response from " ++ e
  | .timeout u => "Timeout connecting to " ++ u
  | .connError u d => "Error connecting to " ++ u ++ ": " ++ d

/-- `FileFlowsApiClient._request` for the case where an HTTP response
arrived: check 404, then any status of at least 400, then read the body
and hand it to the JSON parser; a parse failure raises the
invalid-JSON error.  (Timeouts and transport errors correspond to the
`timeout` and `connError` constructors and bypass this function.) -/
def request (endpoint : String) (resp : HttpResponse) : Except ApiError Json :=
  if resp.status == 404 then .error (.notFound endpoint)
  else if resp.status ≥ 400 then .error (.httpError resp.status resp.body)
  else
    match jsonLoads resp.body with
    | some data => .ok data
    | none => .error (.invalidJson endpoint)

/-! ### Endpoint methods (api.py lines 113-235)

Each method is parameterised by `req`, the outcome of
`self._request("GET", endpoint)` for each endpoint string — either the
parsed JSON value or the `FileFlowsApiError` it raised. -/

/-- `get_status`: a single request to /api/status with no fallback. -/
def get_status (req : String → Except ApiError Json) : Except ApiError Json :=
  req "/api/status"

/-- The candidate paths probed by `get_system_info`, in order. -/
def systemInfoEndpoints : List String :=
  ["/api/system", "/api/system/info", "/api/info", "/api/version"]

/-- The fallback payload `get_system_info` returns when every candidate
fails. -/
def systemInfoFallback : Json :=
  .obj [("error", .str "No system info endpoint available")]

/-- The `for endpoint in endpoints_to_try: try ... except: continue`
pattern: return the first candidate's parsed result, swallowing API
errors from earlier candidates; on total exhaustion return the fallback
payload instead of raising. -/
def firstSuccess (req : String → Except ApiError Json) :
    List String → Json → Json
  | [], fallback => fallback
  | e :: rest, fallback =>
    match req e with
    | .ok data => data
    | .error _ => firstSuccess req rest fallback

/-- `get_system_info`: probe the system-info candidates in order. -/
def get_system_info (req : String → Except ApiError Json) : Json :=
  firstSuccess req systemInfoEndpoints systemInfoFallback

/-- `get_flows`: one request, with an error-shaped fallback. -/
def get_flows (req : String → Except ApiError Json) : Json :=
  match req "/api/flows" with
  | .ok data => data
  | .error _ => .obj [("flows", .arr []), ("error", .str "Could not get flows")]

/-- `get_libraries`: one request, with an error-shaped fallback. -/
def get_libraries (req : String → Except ApiError Json) : Json :=
  match req "/api/libraries" with
  | .ok data => data
  | .error _ =>
    .obj [("libraries", .arr []), ("error", .str "Could not get libraries")]

/-- The candidate paths probed by `get_nodes`, in order. -/
def nodesEndpoints : List String := ["/api/nodes", "/api/workers", "/api/node"]

/-- The fallback payload `get_nodes` returns when every candidate
fails. -/
def nodesFallback : Json :=
  .obj [("nodes", .arr []), ("error", .str "Could not get nodes")]

/-- `get_nodes`: probe the node candidates in order. -/
def get_nodes (req : String → Except ApiError Json) : Json :=
  firstSuccess req nodesEndpoints nodesFallback

/-- The candidate paths probed by `get_statistics`, in order. -/
def statisticsEndpoints : List String :=
  ["/api/statistics", "/api/stats", "/api/dashboard", "/api/dashboard/statistics"]

/-- `get_statistics`: probe the statistics candidates in order. -/
def get_statistics (req : String → Except ApiError Json) : Json :=
  firstSuccess req statisticsEndpoints
    (.obj [("statistics", .obj []), ("error", .str "Could not get statistics")])

/-- `get_settings`: one request, with an error-shaped fallback. -/
def get_settings (req : String → Except ApiError Json) : Json :=
  match req "/api/settings" with
  | .ok data => data
  | .error _ =>
    .obj [("settings", .obj []), ("error", .str "Could not get settings")]

/-- `get_plugins`: one request, with an error-shaped fallback. -/
def get_plugins (req : String → Except ApiError Json) : Json :=
  match req "/api/plugins" with
  | .ok data => data
  | .error _ =>
    .obj [("plugins", .arr []), ("error", .str "Could not get plugins")]

/-- The candidate paths probed by `get_file_history`, in order. -/
def fileHistoryEndpoints (limit : Nat) : List String :=
  ["/api/files?limit=" ++ toString limit,
   "/api/history?limit=" ++ toString limit,
   "/api/file-history?limit=" ++ toString limit]

/-- `get_file_history`: probe the file-history candidates in order. -/
def get_file_history (req : String → Except ApiError Json) (limit : Nat) :
    Json :=
  firstSuccess req (fileHistoryEndpoints limit)
    (.obj [("files", .arr []), ("error", .str "Could not get file history")])

/-! ### `get_comprehensive_data` (api.py lines 237-270) and the
coordinator (`__init__.py` lines 43-62) -/

/-- Python truthiness of a JSON value, as used by
`if not result.get("error")`. -/
def truthy : Json → Bool
  | .null => false
  | .bool b => b
  | .num n => n != 0
  | .str s => s != ""
  | .arr xs => !xs.isEmpty
  | .obj fs => !fs.isEmpty

/-- One iteration of the optional-endpoint loop:
`data[key] = result` guarded by `if not result.get("error")`.  A
non-dict result makes `result.get` raise AttributeError, which the bare
`except Exception` of the loop catches, skipping the key. -/
def addOptional (data : List (String × Json)) (key : String)
    (result : Json) : List (String × Json) :=
  match result with
  | .obj fs =>
    if truthy ((lookupField fs "error").getD .null) then data
    else data ++ [(key, result)]
  | _ => data

/-- The `additional_endpoints` list of `get_comprehensive_data`: the
optional keys in source order, each paired with the call's result.
All eight getters handle `FileFlowsApiError` internally and return. -/
def additionalResults (req : String → Except ApiError Json) :
    List (String × Json) :=
  [("system_info", get_system_info req),
   ("flows", get_flows req),
   ("libraries", get_libraries req),
   ("nodes", get_nodes req),
   ("statistics", get_statistics req),
   ("settings", get_settings req),
   ("plugins", get_plugins req),
   ("file_history", get_file_history req 5)]

/-- `get_comprehensive_data`: write the `status` key first (substituting
an error object if `get_status` raised — that `try/except` catches any
exception), then run the optional loop; the `return data` at the end is
the only exit, so the result is always `.ok`. -/
def get_comprehensive_data (req : String → Except ApiError Json) :
    Except ApiError (List (String × Json)) :=
  let base :=
    match get_status req with
    | .ok v => [("status", v)]
    | .error err => [("status", Json.obj [("error", Json.str err.msg)])]
  .ok ((additionalResults req).foldl
    (fun data kv => addOptional data kv.1 kv.2) base)

/-- `FileFlowsDataUpdateCoordinator._async_update_data`: return the
comprehensive data; if it raised a `FileFlowsApiError`, substitute an
error-marked status snapshot.  (The final `except Exception` branch
re-raises as UpdateFailed; it has no counterpart here because the
model's only exception type is `ApiError`.) -/
def async_update_data (req : String → Except ApiError Json) :
    Except String (List (String × Json)) :=
  match get_comprehensive_data req with
  | .ok data => .ok data
  | .error err =>
    .ok [("status", Json.obj [("error", Json.str err.msg)])]

/-- The host coordinator's published state: whether the last poll
succeeded and the last snapshot, per the host's update-coordinator
contract. -/
structure CoordState where
  last_update_success : Bool
  data : Option (List (String × Json))

/-- One poll tick under the host contract: a normal return publishes the
snapshot and marks success; an UpdateFailed marks failure and keeps the
previous snapshot. -/
def tick (prev : CoordState) (req : String → Except ApiError Json) :
    CoordState :=
  match async_update_data req with
  | .ok data => ⟨true, some data⟩
  | .error _ => ⟨false, prev.data⟩

/-! ### Entity adapters (sensor.py, binary_sensor.py) -/

/-- Python's `key in j` membership test for the containers the sensors
read (dict: key lookup; list: element equality with a string).  On other
values Python raises TypeError; no theorem below reaches that case. -/
def pyContains (key : String) : Json → Bool
  | .obj fs => fs.any (fun p => p.1 == key)
  | .arr xs =>
    xs.any (fun x => match x with | .str s => s == key | _ => false)
  | _ => false

/-- Python's `j.get(key)` for a dict (`None` when absent); a non-dict
receiver raises AttributeError, a case no theorem below reaches. -/
def jsonGet (j : Json) (key : String) : Option Json :=
  match j with
  | .obj fs => lookupField fs key
  | _ => none

/-- The snapshot's `data.get("status", \x7b\x7d)` read used by the
sensors, guarded by the callers' availability checks. -/
def statusData (c : CoordState) : Json :=
  match c.data with
  | some d => (lookupField d "status").getD (.obj [])
  | none => .obj []

/-- `FileFlowsStatusBinarySensor.is_on` (binary_sensor.py lines 75-83):
online iff the last update succeeded, a snapshot exists, it has a
`status` key and the status value carries no `error` member. -/
def status_is_on (c : CoordState) : Bool :=
  c.last_update_success &&
  c.data.isSome &&
  (match c.data with
   | some d =>
     (lookupField d "status").isSome &&
     !(pyContains "error" ((lookupField d "status").getD (.obj [])))
   | none => false)

/-- `FileFlowsBaseSensor.available` (sensor.py lines 81-89): the same
four-way conjunction as the status binary sensor's `is_on`. -/
def base_available (c : CoordState) : Bool :=
  c.last_update_success &&
  c.data.isSome &&
  (match c.data with
   | some d =>
     (lookupField d "status").isSome &&
     !(pyContains "error" ((lookupField d "status").getD (.obj [])))
   | none => false)

/-- `FileFlowsQueueSensor.native_value`. -/
def queue_native_value (c : CoordState) : Option Json :=
  if !(base_available c) then none
  else jsonGet (statusData c) "queue"

/-- `FileFlowsProcessingSensor.native_value`. -/
def processing_native_value (c : CoordState) : Option Json :=
  if !(base_available c) then none
  else jsonGet (statusData c) "processing"

/-- `FileFlowsProcessedSensor.native_value`. -/
def processed_native_value (c : CoordState) : Option Json :=
  if !(base_available c) then none
  else jsonGet (statusData c) "processed"

/-- `FileFlowsTimeSensor.native_value`. -/
def time_native_value (c : CoordState) : Option Json :=
  if !(base_available c) then none
  else jsonGet (statusData c) "time"

/-- `FileFlowsProcessingFilesSensor.native_value`:
`len(status_data.get("processingFiles", []))`.  `len` of a non-sequence
raises TypeError; no theorem below reaches that case. -/
def processing_files_native_value (c : CoordState) : Option Json :=
  if !(base_available c) then none
  else
    match (jsonGet (statusData c) "processingFiles").getD (.arr []) with
    | .arr xs => some (.num xs.length)
    | _ => none

/-- Availability of a count sensor keyed on an optional snapshot entry:
`super().available and key in data and "error" not in data.get(key, \x7b\x7d)`
(sensor.py lines 304-310, 356-362, 388-394, 420-426). -/
def count_sensor_available (c : CoordState) (key : String) : Bool :=
  base_available c &&
  (lookupField (c.data.getD []) key).isSome &&
  !(pyContains "error" ((lookupField (c.data.getD []) key).getD (.obj [])))

/-- `FileFlowsNodeCountSensor.native_value`:
`nodes_data.get("nodes", nodes_data.get("workers", []))`, and its length
when it is a list, else 0. -/
def node_count_native_value (c : CoordState) : Option Json :=
  if !(count_sensor_available c "nodes") then none
  else
    let nodes_data := (lookupField (c.data.getD []) "nodes").getD (.obj [])
    let nodes :=
      (jsonGet nodes_data "nodes").getD
        ((jsonGet nodes_data "workers").getD (.arr []))
    match nodes with
    | .arr xs => some (.num xs.length)
    | _ => some (.num 0)

/-- `FileFlowsFlowCountSensor.native_value`. -/
def flow_count_native_value (c : CoordState) : Option Json :=
  if !(count_sensor_available c "flows") then none
  else
    let flows_data := (lookupField (c.data.getD []) "flows").getD (.obj [])
    match (jsonGet flows_data "flows").getD (.arr []) with
    | .arr xs => some (.num xs.length)
    | _ => some (.num 0)

/-- `FileFlowsLibraryCountSensor.native_value`. -/
def library_count_native_value (c : CoordState) : Option Json :=
  if !(count_sensor_available c "libraries") then none
  else
    let libs_data := (lookupField (c.data.getD []) "libraries").getD (.obj [])
    match (jsonGet libs_data "libraries").getD (.arr []) with
    | .arr xs => some (.num xs.length)
    | _ => some (.num 0)

/-- `FileFlowsPluginCountSensor.native_value`. -/
def plugin_count_native_value (c : CoordState) : Option Json :=
  if !(count_sensor_available c "plugins") then none
  else
    let plugins_data := (lookupField (c.data.getD []) "plugins").getD (.obj [])
    match (jsonGet plugins_data "plugins").getD (.arr []) with
    | .arr xs => some (.num xs.length)
    | _ => some (.num 0)

/-! ### Node enum sensors (sensors_nodes.py) -/

/-- `StatusNodeSensor.native_value` as a function of the integer status
code.  The second `code == 4` test ("Version Mismatch") is dead in the
source and kept dead here. -/
def statusNodeDisplay (code : Int) : String :=
  if code = 0 then "Offline"
  else if code = 1 then "Idle"
  else if code = 2 then "Processing"
  else if code = 3 then "Disabled"
  else if code = 4 then "Out of Schedule"
  else if code = 4 then "Version Mismatch"
  else "Unknown"

/-- `OperatingSystemNodeSensor.native_value` as a function of the
integer operating-system code. -/
def osNodeDisplay (code : Int) : String :=
  if code = 1 then "Windows"
  else if code = 2 then "Linux"
  else if code = 3 then "Mac"
  else if code = 4 then "Docker"
  else if code = 5 then "FreeBSD"
  else "Unknown"

/-- `ArchitectureNodeSensor.native_value` as a function of the integer
architecture code. -/
def archNodeDisplay (code : Int) : String :=
  if code = 1 then "x86"
  else if code = 2 then "x64"
  else if code = 3 then "Arm32"
  else if code = 4 then "Arm64"
  else "Unknown"

/-! ### `NodeEntity._data` (entity.py lines 42-44) -/

/-- Python exceptions reachable from `NodeEntity._data`. -/
inductive PyErr where
  | keyError (k : String) : PyErr
  | typeError : PyErr
  | indexError : PyErr

/-- Python subscript `d[k]`: KeyError when the key is absent from a
dict, TypeError when the receiver is not subscriptable by a string. -/
def getItem (j : Json) (k : String) : Except PyErr Json :=
  match j with
  | .obj fs =>
    match lookupField fs k with
    | some v => .ok v
    | none => .error (.keyError k)
  | _ => .error .typeError

/-- The list comprehension
`[d for d in self.coordinator.data if d["Uid"] == self._node_uid]`:
evaluates `d["Uid"]` for each descriptor in order, propagating the
first exception; a non-string `Uid` value simply compares unequal to
the string uid. -/
def filterByUid (uid : String) : List Json → Except PyErr (List Json)
  | [] => .ok []
  | d :: rest =>
    match getItem d "Uid" with
    | .error e => .error e
    | .ok u =>
      match filterByUid uid rest with
      | .error e => .error e
      | .ok tail =>
        match u with
        | .str s => if s == uid then .ok (d :: tail) else .ok tail
        | _ => .ok tail

/-- `NodeEntity._data`: the unguarded `[0]` on the filtered list — an
empty filter result raises IndexError. -/
def nodeEntityData (data : List Json) (uid : String) : Except PyErr Json :=
  match filterByUid uid data with
  | .error e => .error e
  | .ok (d :: _) => .ok d
  | .ok [] => .error .indexError

/-! ### Node connectivity (spec section 8) -/

/-- Modelled from the spec: the node connectivity binary sensor is
missing from the sources (only the `connected_last_seen_timespan`
configuration constant of const.py line 7 and its default of 5 minutes
remain); per the spec, "Connectivity boolean = true iff
now - last_seen <= configured_timespan".  Times are minutes as
integers. -/
def node_connected (now lastSeen timespan : Int) : Bool :=
  decide (now - lastSeen ≤ timespan)

end FileFlows

namespace FileFlows

/-! ### Claims C1-C3 -/

/-- Claim C1: for every HTTP status in [400, 599] other than 404,
`_request` fails with the HTTP-error kind whose message is
"API error status: body", and for status exactly 404 it fails with
the not-found kind whose message is "Endpoint not found: endpoint";
in both cases an error is raised and no JSON value is returned. -/
theorem c1_http_statuses (endpoint : String) (resp : HttpResponse)
    (h400 : 400 ≤ resp.status) (h599 : resp.status ≤ 599) :
    (resp.status ≠ 404 →
      request endpoint resp = .error (.httpError resp.status resp.body) ∧
      (ApiError.httpError resp.status resp.body).msg =
        "API error " ++ toString resp.status ++ ": " ++ resp.body) ∧
    (resp.status = 404 →
      request endpoint resp = .error (.notFound endpoint) ∧
      (ApiError.notFound endpoint).msg = "Endpoint not found: " ++ endpoint) := by
  constructor
  · intro hne
    refine ⟨?_, rfl⟩
    have h1 : (resp.status == 404) = false := by
      simp [Nat.beq_eq_true_eq]
      omega
    simp [request, h1, h400]
  · intro heq
    refine ⟨?_, rfl⟩
    have h1 : (resp.status == 404) = true := by
      simp [Nat.beq_eq_true_eq, heq]
    simp [request, h1]

/-- Witness for C1 at status 500 and at status 404. -/
theorem c1_http_statuses_witness :
    request "/api/status" ⟨500, "oops"⟩ =
      .error (.httpError 500 "oops") ∧
    request "/api/status" ⟨404, ""⟩ =
      .error (.notFound "/api/status") := by
  refine ⟨?_, ?_⟩
  · exact ((c1_http_statuses "/api/status" ⟨500, "oops"⟩ (by decide)
      (by decide)).1 (by decide)).1
  · exact ((c1_http_statuses "/api/status" ⟨404, ""⟩ (by decide)
      (by decide)).2 rfl).1

/-- Counterexample to C2: the body "42" does not start with a brace or a
bracket, yet `_request` parses it and returns the JSON number 42 instead
of failing — the code never inspects the body's first character. -/
theorem c2_counterexample :
    request "/api/status" ⟨200, "42"⟩ = .ok (Json.num 42) := rfl

/-- On a status below 400, `_request` reduces to the JSON parse of the
body (shared helper for the claims about sub-400 responses). -/
theorem request_parse_of_lt400 (endpoint : String) (resp : HttpResponse)
    (hlt : resp.status < 400) :
    request endpoint resp =
      match jsonLoads resp.body with
      | some data => .ok data
      | none => .error (.invalidJson endpoint) := by
  have h1 : (resp.status == 404) = false := by
    simp [Nat.beq_eq_true_eq]
    omega
  have h2 : ¬ (resp.status ≥ 400) := by omega
  simp [request, h1, h2]

/-- Claim C2 (amended): for statuses below 400 the body is handed to the
JSON parser regardless of its first character; whatever value the parser
yields (a bare number, string or boolean included) is returned, and an
API error is raised only when parsing fails. -/
theorem c2_amended_parse_only (endpoint : String) (resp : HttpResponse)
    (hlt : resp.status < 400) :
    (∀ v, jsonLoads resp.body = some v → request endpoint resp = .ok v) ∧
    (jsonLoads resp.body = none →
      request endpoint resp = .error (.invalidJson endpoint)) := by
  constructor
  · intro v hv
    rw [request_parse_of_lt400 endpoint resp hlt, hv]
  · intro hv
    rw [request_parse_of_lt400 endpoint resp hlt, hv]

/-- Witness for C2 (amended): a bare boolean body parses and is
returned, and a non-JSON body fails. -/
theorem c2_amended_parse_only_witness :
    request "/api/x" ⟨200, "true"⟩ = .ok (Json.bool true) ∧
    request "/api/x" ⟨200, "plain text"⟩ =
      .error (.invalidJson "/api/x") := by
  refine ⟨?_, ?_⟩
  · exact (c2_amended_parse_only "/api/x" ⟨200, "true"⟩ (by decide)).1
      (Json.bool true) rfl
  · exact (c2_amended_parse_only "/api/x" ⟨200, "plain text"⟩
      (by decide)).2 rfl

/-- Counterexample to C3: on an empty body `_request` fails with the
invalid-JSON kind produced by the parse attempt — there is no separate
empty-body check and no distinct empty-response error kind; the parser
is invoked on the empty body and rejects it. -/
theorem c3_counterexample :
    request "/api/status" ⟨200, ""⟩ =
      .error (.invalidJson "/api/status") ∧
    jsonLoads "" = none := ⟨rfl, rfl⟩

/-- Claim C3 (amended): for every status below 400 and an empty body,
`_request` fails with an invalid-JSON API error, raised because the JSON
parser rejects the empty input (the code performs no empty-body check
before parsing). -/
theorem c3_amended_empty_body (endpoint : String) (status : Nat)
    (hlt : status < 400) :
    request endpoint ⟨status, ""⟩ = .error (.invalidJson endpoint) := by
  rw [request_parse_of_lt400 endpoint ⟨status, ""⟩ hlt]
  rfl

/-- Witness for C3 (amended) at status 200. -/
theorem c3_amended_empty_body_witness :
    request "/api/flows" ⟨200, ""⟩ = .error (.invalidJson "/api/flows") :=
  c3_amended_empty_body "/api/flows" 200 (by decide)

/-! ### Claim C4: candidate-path probing -/

/-- `firstSuccess` returns the first candidate's parsed value when every
earlier candidate failed. -/
theorem firstSuccess_eq_of_first_ok (req : String → Except ApiError Json)
    (pre rest : List String) (e : String) (fb v : Json)
    (hpre : ∀ p ∈ pre, ∃ err, req p = .error err)
    (he : req e = .ok v) :
    firstSuccess req (pre ++ e :: rest) fb = v := by
  induction pre with
  | nil => simp [firstSuccess, he]
  | cons p ps ih =>
    obtain ⟨err, herr⟩ := hpre p (by simp)
    simpa [firstSuccess, herr] using ih (fun q hq => hpre q (by simp [hq]))

/-- `firstSuccess` returns the fallback when every candidate failed. -/
theorem firstSuccess_eq_fallback (req : String → Except ApiError Json)
    (l : List String) (fb : Json)
    (h : ∀ p ∈ l, ∃ err, req p = .error err) :
    firstSuccess req l fb = fb := by
  induction l with
  | nil => rfl
  | cons p ps ih =>
    obtain ⟨err, herr⟩ := h p (by simp)
    simpa [firstSuccess, herr] using ih (fun q hq => h q (by simp [hq]))

/-- Claim C4: `get_system_info` and `get_nodes` probe their ordered
candidate lists, return the parsed result of the first candidate whose
request succeeds while swallowing earlier API errors, and only on total
exhaustion return an error-shaped fallback dictionary (which carries an
"error" key) instead of raising. -/
theorem c4_candidate_probing (req : String → Except ApiError Json) :
    (∀ pre e rest v, systemInfoEndpoints = pre ++ e :: rest →
        (∀ p ∈ pre, ∃ err, req p = .error err) → req e = .ok v →
        get_system_info req = v) ∧
    ((∀ p ∈ systemInfoEndpoints, ∃ err, req p = .error err) →
        get_system_info req = systemInfoFallback ∧
        (jsonGet systemInfoFallback "error").isSome = true) ∧
    (∀ pre e rest v, nodesEndpoints = pre ++ e :: rest →
        (∀ p ∈ pre, ∃ err, req p = .error err) → req e = .ok v →
        get_nodes req = v) ∧
    ((∀ p ∈ nodesEndpoints, ∃ err, req p = .error err) →
        get_nodes req = nodesFallback ∧
        (jsonGet nodesFallback "error").isSome = true) := by
  refine ⟨?_, ?_, ?_, ?_⟩
  · intro pre e rest v hl hpre he
    rw [get_system_info, hl]
    exact firstSuccess_eq_of_first_ok req pre rest e _ v hpre he
  · intro h
    exact ⟨firstSuccess_eq_fallback req _ _ h, rfl⟩
  · intro pre e rest v hl hpre he
    rw [get_nodes, hl]
    exact firstSuccess_eq_of_first_ok req pre rest e _ v hpre he
  · intro h
    exact ⟨firstSuccess_eq_fallback req _ _ h, rfl⟩

/-- Witness for C4: with /api/system failing and /api/system/info
returning 7, `get_system_info` yields 7; with every node candidate
timing out, `get_nodes` yields the fallback payload. -/
theorem c4_candidate_probing_witness :
    get_system_info
      (fun e => if e == "/api/system/info" then .ok (.num 7)
                else .error (.notFound e)) = Json.num 7 ∧
    get_nodes (fun e => .error (.timeout e)) = nodesFallback := by
  constructor
  · exact (c4_candidate_probing _).1 ["/api/system"] "/api/system/info"
      ["/api/info", "/api/version"] (Json.num 7) rfl
      (by
        intro p hp
        simp only [List.mem_singleton] at hp
        subst hp
        exact ⟨.notFound "/api/system", rfl⟩)
      rfl
  · exact ((c4_candidate_probing _).2.2.2
      (fun p _ => ⟨.timeout p, rfl⟩)).1

/-! ### Claims C5 and C9: the merged snapshot -/

/-- Each optional-loop iteration only ever appends to the snapshot. -/
theorem addOptional_extends (data : List (String × Json)) (key : String)
    (r : Json) : ∃ suf, addOptional data key r = data ++ suf := by
  cases r with
  | obj fs =>
    dsimp [addOptional]
    split
    · exact ⟨[], by simp⟩
    · exact ⟨[(key, Json.obj fs)], rfl⟩
  | null => exact ⟨[], by simp [addOptional]⟩
  | bool b => exact ⟨[], by simp [addOptional]⟩
  | num n => exact ⟨[], by simp [addOptional]⟩
  | str s => exact ⟨[], by simp [addOptional]⟩
  | arr xs => exact ⟨[], by simp [addOptional]⟩

/-- The optional loop as a whole only ever appends to the snapshot. -/
theorem foldl_addOptional_extends (l : List (String × Json))
    (init : List (String × Json)) :
    ∃ suf,
      l.foldl (fun d kv => addOptional d kv.1 kv.2) init = init ++ suf := by
  induction l generalizing init with
  | nil => exact ⟨[], by simp⟩
  | cons kv rest ih =>
    obtain ⟨s2, h2⟩ := ih (addOptional init kv.1 kv.2)
    obtain ⟨s1, h1⟩ := addOptional_extends init kv.1 kv.2
    refine ⟨s1 ++ s2, ?_⟩
    rw [List.foldl_cons, h2, h1, List.append_assoc]

/-- Claim C5: whenever the status call succeeds, the merged snapshot of
`get_comprehensive_data` holds the status endpoint's value under the
"status" key, whatever the optional calls did. -/
theorem c5_status_in_snapshot (req : String → Except ApiError Json)
    (v : Json) (h : get_status req = .ok v) :
    ∃ data, get_comprehensive_data req = .ok data ∧
      lookupField data "status" = some v := by
  obtain ⟨suf, hs⟩ :=
    foldl_addOptional_extends (additionalResults req) [("status", v)]
  refine ⟨("status", v) :: suf, ?_, ?_⟩
  · simp [get_comprehensive_data, h, hs]
  · simp [lookupField]

/-- Witness for C5 with a request oracle where only /api/status
succeeds (every optional endpoint fails). -/
theorem c5_status_in_snapshot_witness :
    ∃ data,
      get_comprehensive_data
        (fun e => if e == "/api/status" then .ok (.obj [("queue", .num 3)])
                  else .error (.notFound e)) = .ok data ∧
      lookupField data "status" = some (.obj [("queue", .num 3)]) :=
  c5_status_in_snapshot _ _ rfl

/-- Claim C9: `get_comprehensive_data` is total over every combination
of endpoint outcomes — it always returns a snapshot containing the
"status" key and never raises; consequently the coordinator's
except-FileFlowsApiError fallback branch never runs: the coordinator
returns exactly the comprehensive snapshot. -/
theorem c9_comprehensive_total (req : String → Except ApiError Json) :
    ∃ data, get_comprehensive_data req = .ok data ∧
      (lookupField data "status").isSome = true ∧
      async_update_data req = .ok data := by
  cases hst : get_status req with
  | ok v =>
    obtain ⟨suf, hs⟩ :=
      foldl_addOptional_extends (additionalResults req) [("status", v)]
    have hdata : get_comprehensive_data req = .ok (("status", v) :: suf) := by
      simp [get_comprehensive_data, hst, hs]
    exact ⟨_, hdata, by simp [lookupField],
      by simp [async_update_data, hdata]⟩
  | error err =>
    obtain ⟨suf, hs⟩ := foldl_addOptional_extends (additionalResults req)
      [("status", Json.obj [("error", Json.str err.msg)])]
    have hdata : get_comprehensive_data req =
        .ok (("status", Json.obj [("error", Json.str err.msg)]) :: suf) := by
      simp [get_comprehensive_data, hst, hs]
    exact ⟨_, hdata, by simp [lookupField],
      by simp [async_update_data, hdata]⟩

/-! ### Claim C6: status endpoint failure end-to-end -/

/-- Claim C6: when the status endpoint answers HTTP 500, the coordinator
publishes (with success) a snapshot whose "status" entry is an error
marker; under that snapshot the status binary sensor's `is_on` is false
and every sensor derived from `FileFlowsBaseSensor` is unavailable with
a `None` native value. -/
theorem c6_status_500_end_to_end (net : String → HttpResponse)
    (t : String) (prev : CoordState)
    (hs : net "/api/status" = ⟨500, t⟩) :
    ∃ data,
      get_comprehensive_data (fun e => request e (net e)) = .ok data ∧
      lookupField data "status" =
        some (Json.obj [("error", Json.str (ApiError.httpError 500 t).msg)]) ∧
      tick prev (fun e => request e (net e)) = ⟨true, some data⟩ ∧
      status_is_on ⟨true, some data⟩ = false ∧
      base_available ⟨true, some data⟩ = false ∧
      queue_native_value ⟨true, some data⟩ = none ∧
      processing_native_value ⟨true, some data⟩ = none ∧
      processed_native_value ⟨true, some data⟩ = none ∧
      time_native_value ⟨true, some data⟩ = none ∧
      processing_files_native_value ⟨true, some data⟩ = none ∧
      node_count_native_value ⟨true, some data⟩ = none ∧
      flow_count_native_value ⟨true, some data⟩ = none ∧
      library_count_native_value ⟨true, some data⟩ = none ∧
      plugin_count_native_value ⟨true, some data⟩ = none := by
  have hst : get_status (fun e => request e (net e)) =
      .error (.httpError 500 t) := by
    simp [get_status, hs, request]
  obtain ⟨suf, hsuf⟩ := foldl_addOptional_extends
    (additionalResults (fun e => request e (net e)))
    [("status", Json.obj [("error",
      Json.str (ApiError.httpError 500 t).msg)])]
  have hdata : get_comprehensive_data (fun e => request e (net e)) =
      .ok (("status", Json.obj [("error",
        Json.str (ApiError.httpError 500 t).msg)]) :: suf) := by
    simp [get_comprehensive_data, hst, hsuf]
  have havail : base_available ⟨true, some (("status", Json.obj [("error",
      Json.str (ApiError.httpError 500 t).msg)]) :: suf)⟩ = false := by
    simp [base_available, lookupField, pyContains]
  refine ⟨_, hdata, by simp [lookupField], ?_, ?_, havail, ?_, ?_, ?_, ?_,
    ?_, ?_, ?_, ?_, ?_⟩
  · simp [tick, async_update_data, hdata]
  · simp [status_is_on, lookupField, pyContains]
  · simp [queue_native_value, havail]
  · simp [processing_native_value, havail]
  · simp [processed_native_value, havail]
  · simp [time_native_value, havail]
  · simp [processing_files_native_value, havail]
  · simp [node_count_native_value, count_sensor_available, havail]
  · simp [flow_count_native_value, count_sensor_available, havail]
  · simp [library_count_native_value, count_sensor_available, havail]
  · simp [plugin_count_native_value, count_sensor_available, havail]

/-- Witness for C6 with a network that serves HTTP 500 on /api/status
and 404 elsewhere, starting from an empty coordinator state. -/
theorem c6_status_500_end_to_end_witness :
    ∃ data,
      get_comprehensive_data (fun e => request e
        (if e == "/api/status" then ⟨500, "Internal Server Error"⟩
         else ⟨404, ""⟩)) = .ok data ∧
      lookupField data "status" =
        some (Json.obj [("error",
          Json.str (ApiError.httpError 500 "Internal Server Error").msg)]) ∧
      tick ⟨false, none⟩ (fun e => request e
        (if e == "/api/status" then ⟨500, "Internal Server Error"⟩
         else ⟨404, ""⟩)) = ⟨true, some data⟩ ∧
      status_is_on ⟨true, some data⟩ = false ∧
      base_available ⟨true, some data⟩ = false ∧
      queue_native_value ⟨true, some data⟩ = none ∧
      processing_native_value ⟨true, some data⟩ = none ∧
      processed_native_value ⟨true, some data⟩ = none ∧
      time_native_value ⟨true, some data⟩ = none ∧
      processing_files_native_value ⟨true, some data⟩ = none ∧
      node_count_native_value ⟨true, some data⟩ = none ∧
      flow_count_native_value ⟨true, some data⟩ = none ∧
      library_count_native_value ⟨true, some data⟩ = none ∧
      plugin_count_native_value ⟨true, some data⟩ = none :=
  c6_status_500_end_to_end _ "Internal Server Error" ⟨false, none⟩ rfl

/-! ### Claim C7: node connectivity boundary -/

/-- Claim C7 (spec-modelled, the sensor itself is absent from the
sources): the connectivity boolean is true exactly when
`now - last_seen <= configured_timespan`, and the boundary case of
equality is decided as connected. -/
theorem c7_connectivity_boundary (now lastSeen timespan : Int) :
    (node_connected now lastSeen timespan = true ↔
      now - lastSeen ≤ timespan) ∧
    (now - lastSeen = timespan →
      node_connected now lastSeen timespan = true) := by
  constructor
  · simp [node_connected]
  · intro h
    simp [node_connected, h]

/-- Witness for C7 exactly at the boundary: elapsed 5 = timespan 5. -/
theorem c7_connectivity_boundary_witness :
    node_connected 10 5 5 = true :=
  (c7_connectivity_boundary 10 5 5).2 (by decide)

/-! ### Claim C8: node enum sensors -/

/-- Claim C8: the node Status, Operating System and Architecture
sensors return their fixed display strings on the mapped codes
(0-4, 1-5, 1-4 respectively) and exactly "Unknown" on every integer
code outside the mapped set. -/
theorem c8_enum_display (code : Int) :
    (statusNodeDisplay 0 = "Offline" ∧ statusNodeDisplay 1 = "Idle" ∧
     statusNodeDisplay 2 = "Processing" ∧ statusNodeDisplay 3 = "Disabled" ∧
     statusNodeDisplay 4 = "Out of Schedule") ∧
    ((code < 0 ∨ 4 < code) → statusNodeDisplay code = "Unknown") ∧
    (osNodeDisplay 1 = "Windows" ∧ osNodeDisplay 2 = "Linux" ∧
     osNodeDisplay 3 = "Mac" ∧ osNodeDisplay 4 = "Docker" ∧
     osNodeDisplay 5 = "FreeBSD") ∧
    ((code < 1 ∨ 5 < code) → osNodeDisplay code = "Unknown") ∧
    (archNodeDisplay 1 = "x86" ∧ archNodeDisplay 2 = "x64" ∧
     archNodeDisplay 3 = "Arm32" ∧ archNodeDisplay 4 = "Arm64") ∧
    ((code < 1 ∨ 4 < code) → archNodeDisplay code = "Unknown") := by
  refine ⟨⟨rfl, rfl, rfl, rfl, rfl⟩, ?_, ⟨rfl, rfl, rfl, rfl, rfl⟩, ?_,
    ⟨rfl, rfl, rfl, rfl⟩, ?_⟩
  · intro h
    have h0 : code ≠ 0 := by omega
    have h1 : code ≠ 1 := by omega
    have h2 : code ≠ 2 := by omega
    have h3 : code ≠ 3 := by omega
    have h4 : code ≠ 4 := by omega
    simp [statusNodeDisplay, h0, h1, h2, h3, h4]
  · intro h
    have h1 : code ≠ 1 := by omega
    have h2 : code ≠ 2 := by omega
    have h3 : code ≠ 3 := by omega
    have h4 : code ≠ 4 := by omega
    have h5 : code ≠ 5 := by omega
    simp [osNodeDisplay, h1, h2, h3, h4, h5]
  · intro h
    have h1 : code ≠ 1 := by omega
    have h2 : code ≠ 2 := by omega
    have h3 : code ≠ 3 := by omega
    have h4 : code ≠ 4 := by omega
    simp [archNodeDisplay, h1, h2, h3, h4]

/-- Witness for C8 on unmapped codes 5, 0 and 7. -/
theorem c8_enum_display_witness :
    statusNodeDisplay 5 = "Unknown" ∧ osNodeDisplay 0 = "Unknown" ∧
    archNodeDisplay 7 = "Unknown" :=
  ⟨(c8_enum_display 5).2.1 (by omega),
   (c8_enum_display 0).2.2.2.1 (by omega),
   (c8_enum_display 7).2.2.2.2.2 (by omega)⟩

/-! ### Claim C10: partiality of `NodeEntity._data` -/

/-- When every descriptor has a Uid and none matches, the comprehension
yields the empty list. -/
theorem filterByUid_eq_nil (uid : String) (data : List Json)
    (hall : ∀ d ∈ data, ∃ v, getItem d "Uid" = .ok v)
    (hnone : ∀ d ∈ data, getItem d "Uid" ≠ .ok (.str uid)) :
    filterByUid uid data = .ok [] := by
  induction data with
  | nil => rfl
  | cons d rest ih =>
    obtain ⟨v, hv⟩ := hall d (by simp)
    have htail := ih (fun q hq => hall q (by simp [hq]))
      (fun q hq => hnone q (by simp [hq]))
    have hne := hnone d (by simp)
    rw [hv] at hne
    cases v with
    | str s =>
      have hs : (s == uid) = false := by
        simp only [beq_eq_false_iff_ne, ne_eq]
        intro hsu
        exact hne (by rw [hsu])
      simp [filterByUid, hv, htail, hs]
    | null => simp [filterByUid, hv, htail]
    | bool b => simp [filterByUid, hv, htail]
    | num n => simp [filterByUid, hv, htail]
    | arr xs => simp [filterByUid, hv, htail]
    | obj fs => simp [filterByUid, hv, htail]

/-- Every member of the comprehension's result is a descriptor of the
snapshot whose Uid equals the entity's uid. -/
theorem filterByUid_mem (uid : String) (data : List Json)
    (ms : List Json) (h : filterByUid uid data = .ok ms) :
    ∀ m ∈ ms, m ∈ data ∧ getItem m "Uid" = .ok (.str uid) := by
  induction data generalizing ms with
  | nil =>
    injection h with h2
    subst h2
    intro m hm
    cases hm
  | cons d rest ih =>
    cases hu : getItem d "Uid" with
    | error e =>
      simp only [filterByUid, hu] at h
      exact Except.noConfusion h
    | ok u =>
      cases ht : filterByUid uid rest with
      | error e =>
        simp only [filterByUid, hu, ht] at h
        exact Except.noConfusion h
      | ok tail =>
        have htail := ih tail ht
        have hfromtail : ∀ m ∈ tail, m ∈ d :: rest ∧
            getItem m "Uid" = .ok (.str uid) := by
          intro m hm
          obtain ⟨h1, h2⟩ := htail m hm
          exact ⟨by simp [h1], h2⟩
        cases u with
        | str s =>
          simp only [filterByUid, hu, ht] at h
          by_cases hs : (s == uid) = true
          · rw [if_pos hs] at h
            injection h with h2
            subst h2
            intro m hm
            rcases List.mem_cons.mp hm with hmd | hmt
            · subst hmd
              refine ⟨by simp, ?_⟩
              rw [hu]
              have hsu : s = uid := by simpa using hs
              rw [hsu]
            · exact hfromtail m hmt
          · rw [if_neg hs] at h
            injection h with h2
            subst h2
            exact hfromtail
        | null =>
          simp only [filterByUid, hu, ht] at h
          injection h with h2
          subst h2
          exact hfromtail
        | bool b =>
          simp only [filterByUid, hu, ht] at h
          injection h with h2
          subst h2
          exact hfromtail
        | num n =>
          simp only [filterByUid, hu, ht] at h
          injection h with h2
          subst h2
          exact hfromtail
        | arr xs =>
          simp only [filterByUid, hu, ht] at h
          injection h with h2
          subst h2
          exact hfromtail
        | obj fs =>
          simp only [filterByUid, hu, ht] at h
          injection h with h2
          subst h2
          exact hfromtail

/-- Claim C10: `NodeEntity._data` is partial — on a snapshot of
descriptors (each carrying a Uid) in which none matches the entity's
uid, the unguarded `[0]` raises IndexError, and a value is returned
only when a descriptor with that Uid is present. -/
theorem c10_node_data_unguarded_index (data : List Json) (uid : String) :
    ((∀ d ∈ data, ∃ v, getItem d "Uid" = .ok v) →
     (∀ d ∈ data, getItem d "Uid" ≠ .ok (.str uid)) →
     nodeEntityData data uid = .error .indexError) ∧
    (∀ v, nodeEntityData data uid = .ok v →
      v ∈ data ∧ getItem v "Uid" = .ok (.str uid)) := by
  constructor
  · intro hall hnone
    rw [nodeEntityData, filterByUid_eq_nil uid data hall hnone]
  · intro v hv
    rw [nodeEntityData] at hv
    cases hf : filterByUid uid data with
    | error e =>
      rw [hf] at hv
      cases hv
    | ok ms =>
      rw [hf] at hv
      cases ms with
      | nil => cases hv
      | cons m rest =>
        cases hv
        exact filterByUid_mem uid data (v :: rest) hf v (by simp)

/-- Witness for C10: a snapshot holding the single node "n2" read by
the entity for node "n1" raises IndexError. -/
theorem c10_node_data_unguarded_index_witness :
    nodeEntityData [Json.obj [("Uid", Json.str "n2")]] "n1" =
      .error .indexError := by
  refine (c10_node_data_unguarded_index [Json.obj [("Uid", Json.str "n2")]] "n1").1
    ?_ ?_
  · intro d hd
    simp only [List.mem_singleton] at hd
    subst hd
    exact ⟨Json.str "n2", rfl⟩
  · intro d hd heq
    simp only [List.mem_singleton] at hd
    subst hd
    have : Except.ok (ε := PyErr) (Json.str "n2") =
        Except.ok (Json.str "n1") := by
      rw [← heq]
      rfl
    simp at this
